import Mathlib

/-!
Shallow embedding of the accounting-software Express/Mongoose backend
(src/unnamed/part_000: account, transaction, invoice and report routes;
src/user.js: the Mongoose models and the invoice pre-save hook).

JS numbers are modelled as exact rationals (ℚ).  A JS value that may be
`undefined` is modelled as an `Option`; the JS truthiness coercion `x || d`
on numbers (0 and undefined are falsy) is modelled by `jsOr` / `jsOrO`,
and on strings (the empty string is falsy) by `jsOrStr`.

MongoDB sessions (`startSession` / `commitTransaction` / `abortTransaction`)
are modelled by accumulating writes on a local copy of the store and
returning the original store on every abort path, mirroring the source's
control flow line by line.  The two `save` calls inside a session may fail
at the database layer; the Booleans `txnSaveOk` / `accSaveOk` stand for
those persistence outcomes (a `false` raises, landing in the catch block
that aborts the session).
-/

deriving instance DecidableEq for Except

namespace Accounting

/-- JS `x || d` for a number `x` that is present: `0` is falsy. -/
def jsOr (x d : Rat) : Rat := if x = 0 then d else x

/-- JS `x || d` for a possibly-`undefined` number. -/
def jsOrO (x : Option Rat) (d : Rat) : Rat :=
  match x with
  | none => d
  | some v => if v = 0 then d else v

/-- JS `if (s) target = s` for a possibly-`undefined` string: `""` is falsy. -/
def jsOrStr (x : Option String) (d : String) : String :=
  match x with
  | none => d
  | some s => if s = "" then d else s

/-- JS `x || d` for a possibly-`undefined` date, modelled as an integer
timestamp (`0` is falsy, like the epoch in JS numeric coercion). -/
def jsOrInt (x : Option Int) (d : Int) : Int :=
  match x with
  | none => d
  | some v => if v = 0 then d else v

/-- The `type` enum of TransactionSchema (user.js line 28). -/
inductive TType where
  | Income
  | Expense
  | Loan
  | Investment
deriving DecidableEq, Repr

/-- The Account model (user.js lines 13-20).  `id` models the Mongo `_id`. -/
structure Account where
  id : Nat
  type : String
  name : String
  amount : Rat
  accountType : String
deriving DecidableEq, Repr

/-- The Transaction model (user.js lines 27-42).  `createdAt` models the
`timestamps: true` field used by the tax-report filter. -/
structure Transaction where
  id : Nat
  type : TType
  category : String
  amount : Rat
  tax_rate : Rat
  tax_amount : Rat
  total : Rat
  payment_mode : String
  account : Nat
  date : Int
  description : String
  createdAt : Int
  deleted : Bool
deriving DecidableEq, Repr

/-- The persistent store: the Account and Transaction collections.
`nextId` models Mongo's fresh `_id` generation. -/
structure St where
  accounts : List Account
  txns : List Transaction
  nextId : Nat
deriving DecidableEq, Repr

/-- `Account.findById` -/
def findAccount (st : St) (id : Nat) : Option Account :=
  st.accounts.find? (fun a => a.id == id)

/-- `Transaction.findById` -/
def findTxn (st : St) (id : Nat) : Option Transaction :=
  st.txns.find? (fun t => t.id == id)

/-- The balance of an account in the store, when the account exists. -/
def accountAmount (st : St) (id : Nat) : Option Rat :=
  (findAccount st id).map Account.amount

/-- `account.amount = v; account.save()` -/
def setAccountAmount (st : St) (id : Nat) (v : Rat) : St :=
  { st with accounts := st.accounts.map (fun a => if a.id == id then { a with amount := v } else a) }

/-- `transaction.save()` for an already-stored document. -/
def setTxn (st : St) (t : Transaction) : St :=
  { st with txns := st.txns.map (fun x => if x.id == t.id then t else x) }

/-- Error responses surfaced by the handlers. -/
inductive Err where
  | missingFields
  | notFound
  | accountNotFound
  | serverError
  | cannotDeleteLinked
deriving DecidableEq, Repr

/-- `type === "Income" || type === "Investment" || type === "Loan"`
(part_000 lines 573, 659, 684). -/
def isCredit (t : TType) : Bool :=
  t == TType.Income || t == TType.Investment || t == TType.Loan

/-- `let tax_amount = tax_rate > 0 ? (amount * tax_rate) / 100 : 0`
(part_000 line 552); an `undefined` rate compares false. -/
def createTaxAmount (amount : Rat) (tax_rate : Option Rat) : Rat :=
  match tax_rate with
  | some r => if 0 < r then amount * r / 100 else 0
  | none => 0

/-- Request body of `POST /transactions` (part_000 line 533).  The required
string fields `type` and `account` are modelled as present (an absent one is
rejected by the same 400 guard before the session starts); `createdBy` and
the auth middleware are not modelled. -/
structure CreateTxnReq where
  type : TType
  category : String
  amount : Rat
  tax_rate : Option Rat
  payment_mode : String
  account : Nat
  date : Option Int
  description : String
deriving DecidableEq, Repr

/-- `POST /transactions` (part_000 lines 532-595).  `now` is `Date.now()`. -/
def createtransaction (st : St) (req : CreateTxnReq) (now : Int)
    (txnSaveOk accSaveOk : Bool) : St × Except Err Transaction :=
  if req.amount = 0 ∨ req.category = "" ∨ req.payment_mode = "" then
    (st, Except.error Err.missingFields)
  else
    match findAccount st req.account with
    | none => (st, Except.error Err.accountNotFound)
    | some foundAccount =>
      let tax_amount := createTaxAmount req.amount req.tax_rate
      let total_amount := req.amount + tax_amount
      let newTransaction : Transaction :=
        { id := st.nextId
          type := req.type
          category := req.category
          amount := req.amount
          tax_rate := jsOrO req.tax_rate 0
          tax_amount := tax_amount
          total := total_amount
          payment_mode := req.payment_mode
          account := req.account
          date := jsOrInt req.date now
          description := req.description
          createdAt := now
          deleted := false }
      if !txnSaveOk then (st, Except.error Err.serverError)
      else
        let sess := { st with txns := st.txns ++ [newTransaction], nextId := st.nextId + 1 }
        let newBal :=
          if isCredit req.type then foundAccount.amount + total_amount
          else foundAccount.amount - total_amount
        if !accSaveOk then (st, Except.error Err.serverError)
        else (setAccountAmount sess req.account newBal, Except.ok newTransaction)

/-- Request body of `PUT /updatetransaction/:id` (part_000 line 638): every
field is optional. -/
structure UpdateTxnReq where
  type : Option TType
  category : Option String
  amount : Option Rat
  tax_rate : Option Rat
  payment_mode : Option String
  date : Option Int
  description : Option String
deriving DecidableEq, Repr

/-- `PUT /updatetransaction/:id` (part_000 lines 637-703), line by line.
The JS `tax_amount` is `NaN` when `tax_rate` is given but `amount` is not
(`(undefined * tax_rate) / 100`); that `NaN` is never stored or used, and is
modelled as `none`. -/
def updatetransaction (st : St) (id : Nat) (req : UpdateTxnReq)
    (txnSaveOk accSaveOk : Bool) : St × Except Err Transaction :=
  match findTxn st id with
  | none => (st, Except.error Err.notFound)
  | some transaction =>
    if transaction.deleted then (st, Except.error Err.notFound)
    else
      match findAccount st transaction.account with
      | none => (st, Except.error Err.accountNotFound)
      | some account =>
        let accAmount1 :=
          if isCredit transaction.type then account.amount - transaction.amount
          else account.amount + transaction.amount
        let tax_amount : Option Rat :=
          match req.tax_rate with
          | some r => req.amount.map (fun a => a * r / 100)
          | none => some transaction.tax_amount
        let total_amount : Rat :=
          match req.amount with
          | some a => a + tax_amount.getD 0
          | none => transaction.amount
        let transaction1 : Transaction :=
          { transaction with
            type := req.type.getD transaction.type
            category := jsOrStr req.category transaction.category
            amount := if req.amount.isSome then total_amount else transaction.amount
            tax_amount := if req.amount.isSome then tax_amount.getD transaction.tax_amount
                          else transaction.tax_amount
            tax_rate := req.tax_rate.getD transaction.tax_rate
            payment_mode := jsOrStr req.payment_mode transaction.payment_mode
            date := jsOrInt req.date transaction.date
            description := jsOrStr req.description transaction.description }
        if !txnSaveOk then (st, Except.error Err.serverError)
        else
          let sess := setTxn st transaction1
          let accAmount2 :=
            if isCredit transaction1.type then accAmount1 + total_amount
            else accAmount1 - total_amount
          if !accSaveOk then (st, Except.error Err.serverError)
          else (setAccountAmount sess transaction.account accAmount2, Except.ok transaction1)

/-- `DELETE /deletetransaction/:id` (part_000 lines 710-724): soft delete. -/
def deletetransaction (st : St) (id : Nat) : St × Except Err Unit :=
  match findTxn st id with
  | none => (st, Except.error Err.notFound)
  | some transaction =>
    if transaction.deleted then (st, Except.error Err.notFound)
    else (setTxn st { transaction with deleted := true }, Except.ok ())

/-- `DELETE /:id` account deletion (part_000 lines 508-524).  The linked-
transactions query `Transaction.find({ account: account._id })` has no
`deleted` filter. -/
def deleteAccount (st : St) (id : Nat) : St × Except Err Unit :=
  match findAccount st id with
  | none => (st, Except.error Err.notFound)
  | some account =>
    let transactions := st.txns.filter (fun t => t.account == account.id)
    if transactions.length > 0 then (st, Except.error Err.cannotDeleteLinked)
    else ({ st with accounts := st.accounts.filter (fun a => a.id != id) }, Except.ok ())

/-- Report of `GET /tax_report` (part_000 lines 1135-1179). -/
structure TaxReport where
  gstOnSales : Rat
  gstOnPurchases : Rat
  netGST : Rat
deriving DecidableEq, Repr

/-- Query of `GET /tax_report`: optional createdAt window and payment
method. -/
structure TaxFilter where
  startDate : Option Int
  endDate : Option Int
  paymentMethod : Option String
deriving DecidableEq, Repr

/-- The Mongo filter built on part_000 lines 1140-1148: a `createdAt` range
when both dates are given, and an equality on `paymentMethod` when given.
Transaction documents have no `paymentMethod` field (the schema field is
`payment_mode`), so the equality matches no document. -/
def matchesTaxFilter (f : TaxFilter) (t : Transaction) : Bool :=
  (match f.startDate, f.endDate with
   | some s, some e => decide (s ≤ t.createdAt) && decide (t.createdAt ≤ e)
   | _, _ => true) &&
  (match f.paymentMethod with
   | some _ => false
   | none => true)

/-- `GET /tax_report` (part_000 lines 1135-1179): sums `tax_amount` over the
fetched transactions, Income into `gstOnSales` and Expense into
`gstOnPurchases`.  `Transaction.find(filter)` has no `deleted` filter. -/
def tax_report (st : St) (f : TaxFilter) : TaxReport :=
  let transactions := st.txns.filter (matchesTaxFilter f)
  let gstOnSales :=
    ((transactions.filter (fun t => t.type == TType.Income)).map Transaction.tax_amount).sum
  let gstOnPurchases :=
    ((transactions.filter (fun t => t.type == TType.Expense)).map Transaction.tax_amount).sum
  { gstOnSales := gstOnSales
    gstOnPurchases := gstOnPurchases
    netGST := gstOnSales - gstOnPurchases }

/-- Response of `GET /profit-loss` (part_000 lines 961-1023). -/
structure PLReport where
  totalIncome : Rat
  totalExpense : Rat
  netProfitOrLoss : Rat
deriving DecidableEq, Repr

/-- `GET /profit-loss` (part_000 lines 961-1023): the JS `Date` arithmetic
that turns `year`/`month` into a window is not modelled; the computed
`startDate`/`endDate` are passed in.  The two aggregates match on `type` and
the `date` window only — there is no `deleted` filter. -/
def profit_loss (st : St) (startDate endDate : Int) : PLReport :=
  let income :=
    ((st.txns.filter (fun t =>
        t.type == TType.Income && decide (startDate ≤ t.date) && decide (t.date ≤ endDate))).map
      Transaction.amount).sum
  let expenses :=
    ((st.txns.filter (fun t =>
        t.type == TType.Expense && decide (startDate ≤ t.date) && decide (t.date ≤ endDate))).map
      Transaction.amount).sum
  { totalIncome := income
    totalExpense := expenses
    netProfitOrLoss := income - expenses }

/-- An invoice line item as stored (user.js lines 57-66). -/
structure InvItem where
  description : String
  quantity : Rat
  price : Rat
  tax_rate : Rat
  tax_amount : Rat
  total : Rat
deriving DecidableEq, Repr

/-- The Invoice model (user.js lines 53-75); fields irrelevant to the claims
(`pdfPath`, `createdBy`, `createdAt`) are omitted. -/
structure Invoice where
  invoiceNumber : String
  customerName : String
  customerEmail : String
  items : List InvItem
  subTotal : Rat
  taxTotal : Rat
  grandTotal : Rat
  status : String
  paymentMethod : String
deriving DecidableEq, Repr

/-- One loop body of the pre-save hook (user.js lines 82-95): coerce the
numeric fields with `|| 0` (and the rate with `|| 18`, so an explicit 0 rate
becomes 18), then recompute `tax_amount` and `total`. -/
def preSaveItem (item : InvItem) : InvItem :=
  let price := jsOr item.price 0
  let quantity := jsOr item.quantity 0
  let tax_rate := jsOr item.tax_rate 18
  let itemTotal := quantity * price
  let taxAmount := itemTotal * tax_rate / 100
  { item with
    price := price
    quantity := quantity
    tax_rate := tax_rate
    tax_amount := taxAmount
    total := itemTotal + taxAmount }

/-- `InvoiceSchema.pre("save")` (user.js lines 78-102).  The source
accumulates `subTotal` and `taxTotal` inside the same loop that rewrites the
items; since each stored item carries the coerced `quantity`/`price` and the
recomputed `tax_amount`, the accumulators equal the sums over the rewritten
items, which is how they are written here. -/
def invoicePreSave (inv : Invoice) : Invoice :=
  let items := inv.items.map preSaveItem
  let subTotal := (items.map (fun it => it.quantity * it.price)).sum
  let taxTotal := (items.map InvItem.tax_amount).sum
  { inv with
    items := items
    subTotal := jsOr subTotal 0
    taxTotal := jsOr taxTotal 0
    grandTotal := jsOr (subTotal + taxTotal) 0 }

/-- A raw line item of `POST /createinvoice` (part_000 line 736).
`quantity` and `price` are required by the schema (an absent one makes
`save` throw, so no invoice is stored); `tax_rate` is optional with schema
default 18. -/
structure NewItemReq where
  description : String
  quantity : Rat
  price : Rat
  tax_rate : Option Rat
deriving DecidableEq, Repr

/-- The per-item GST computation of `POST /createinvoice` (part_000 lines
742-750) combined with the schema cast: the spread keeps the raw fields and
the cast applies the default 18 to an absent `tax_rate`.  When `tax_rate` is
absent the JS `taxAmount` is `NaN`; it never survives the pre-save hook and
is modelled as 0. -/
def createRouteItem (item : NewItemReq) : InvItem :=
  let taxAmount :=
    match item.tax_rate with
    | some tr => item.price * item.quantity * tr / 100
    | none => 0
  { description := item.description
    quantity := item.quantity
    price := item.price
    tax_rate := item.tax_rate.getD 18
    tax_amount := taxAmount
    total := item.price * item.quantity + taxAmount }

/-- Request body of `POST /createinvoice` (part_000 line 736). -/
structure CreateInvoiceReq where
  invoiceNumber : String
  customerName : String
  customerEmail : String
  items : List NewItemReq
  paymentMethod : String
deriving DecidableEq, Repr

/-- `POST /createinvoice` (part_000 lines 734-771): the route computes the
items and totals, then `newInvoice.save()` runs the pre-save hook, which
rewrites every computed field. -/
def createinvoice (req : CreateInvoiceReq) : Invoice :=
  let updatedItems := req.items.map createRouteItem
  let subTotal := (req.items.map (fun it => it.price * it.quantity)).sum
  let taxTotal := (updatedItems.map InvItem.tax_amount).sum
  invoicePreSave
    { invoiceNumber := req.invoiceNumber
      customerName := req.customerName
      customerEmail := req.customerEmail
      items := updatedItems
      subTotal := subTotal
      taxTotal := taxTotal
      grandTotal := subTotal + taxTotal
      status := "Pending"
      paymentMethod := req.paymentMethod }

/-- A raw line item of `PUT /update_invoice/:id` (part_000 line 818).
`quantity` and `price` are modelled as present (required by the schema: an
absent one makes the `save` throw and nothing is stored). -/
structure UpdItemReq where
  description : String
  quantity : Rat
  price : Rat
  tax_rate : Option Rat
deriving DecidableEq, Repr

/-- The per-item pricing of `PUT /update_invoice/:id` (part_000 lines
818-831): `price || 0`, `quantity || 0`, and
`tax_rate !== undefined ? tax_rate : 18` — an explicit 0 rate stays 0 here.
The spread keeps the raw `quantity`/`price`/`tax_rate`; the schema cast
applies the default 18 to an absent rate. -/
def updateRouteItem (item : UpdItemReq) : InvItem :=
  let price := jsOr item.price 0
  let quantity := jsOr item.quantity 0
  let taxRate := item.tax_rate.getD 18
  let itemTotal := price * quantity
  let taxAmount := itemTotal * taxRate / 100
  { description := item.description
    quantity := item.quantity
    price := item.price
    tax_rate := item.tax_rate.getD 18
    tax_amount := taxAmount
    total := itemTotal + taxAmount }

/-- Request body of `PUT /update_invoice/:id`, restricted to the allowed
fields (part_000 line 804). -/
structure UpdInvoiceReq where
  customerName : Option String
  customerEmail : Option String
  items : Option (List UpdItemReq)
  paymentMethod : Option String
  status : Option String
deriving DecidableEq, Repr

/-- `Object.keys(updates).length > 0` (part_000 line 840). -/
def UpdInvoiceReq.hasUpdates (r : UpdInvoiceReq) : Bool :=
  r.customerName.isSome || r.customerEmail.isSome || r.items.isSome ||
    r.paymentMethod.isSome || r.status.isSome

/-- `PUT /update_invoice/:id` (part_000 lines 796-857): collect the allowed
updates, recompute items and totals when a non-empty item list is supplied,
`Object.assign` them onto the invoice and save (running the pre-save hook).
When no update field is present, `save` is never called and the stored
invoice is unchanged. -/
def update_invoice (inv : Invoice) (req : UpdInvoiceReq) : Invoice :=
  if req.hasUpdates then
    let inv1 :=
      { inv with
        customerName := req.customerName.getD inv.customerName
        customerEmail := req.customerEmail.getD inv.customerEmail
        paymentMethod := req.paymentMethod.getD inv.paymentMethod
        status := req.status.getD inv.status }
    let inv2 :=
      match req.items with
      | some its =>
        if its.length > 0 then
          let updatedItems := its.map updateRouteItem
          let subTotal := (its.map (fun it => jsOr it.price 0 * jsOr it.quantity 0)).sum
          let taxTotal := (updatedItems.map InvItem.tax_amount).sum
          { inv1 with
            items := updatedItems
            subTotal := subTotal
            taxTotal := taxTotal
            grandTotal := subTotal + taxTotal }
        else { inv1 with items := [] }
      | none => inv1
    invoicePreSave inv2
  else inv

/-- The documented invoice invariant: totals agree with the stored items. -/
def invoiceInvariant (inv : Invoice) : Prop :=
  inv.subTotal = (inv.items.map (fun it => it.quantity * it.price)).sum ∧
  inv.taxTotal = (inv.items.map InvItem.tax_amount).sum ∧
  inv.grandTotal = inv.subTotal + inv.taxTotal

/-! Concrete data for the spec's scenarios and the failing inputs. -/

/-- A balance-0 Cash account, the starting point of spec Scenario 1. -/
def acct0 : Account :=
  { id := 1, type := "Asset", name := "Cash", amount := 0, accountType := "Bank Account" }

/-- Store holding only `acct0`. -/
def st0 : St := { accounts := [acct0], txns := [], nextId := 1 }

/-- Scenario 1 request: Income, amount 1000, tax_rate 10, Cash. -/
def reqCreate : CreateTxnReq :=
  { type := TType.Income, category := "Sales", amount := 1000, tax_rate := some 10,
    payment_mode := "Cash", account := 1, date := none, description := "" }

/-- Store after Scenario 1's create. -/
def st1 : St := (createtransaction st0 reqCreate 0 true true).1

/-- The transaction stored by Scenario 1. -/
def txn1 : Transaction :=
  { id := 1, type := TType.Income, category := "Sales", amount := 1000, tax_rate := 10,
    tax_amount := 100, total := 1100, payment_mode := "Cash", account := 1, date := 0,
    description := "", createdAt := 0, deleted := false }

/-- Scenario 2 request: edit the amount to 2000 at the same 10% rate. -/
def reqEdit : UpdateTxnReq :=
  { type := none, category := none, amount := some 2000, tax_rate := some 10,
    payment_mode := none, date := none, description := none }

/-- Store after Scenario 2's edit. -/
def st2 : St := (updatetransaction st1 1 reqEdit true true).1

/-- A store whose single transaction referencing account 1 is soft-deleted
(an Income transaction with tax_amount 100 and amount 1000 in every date
window used below). -/
def stDel : St :=
  { accounts := [acct0]
    txns := [{ id := 1, type := TType.Income, category := "Sales", amount := 1000,
               tax_rate := 10, tax_amount := 100, total := 1100, payment_mode := "Cash",
               account := 1, date := 5, description := "", createdAt := 5, deleted := true }]
    nextId := 2 }

/-- A create-transaction request with a negative tax rate. -/
def reqNegRate : CreateTxnReq :=
  { type := TType.Income, category := "Sales", amount := 100, tax_rate := some (-10),
    payment_mode := "Cash", account := 1, date := none, description := "" }

/-- An update-invoice line item whose tax_rate is explicitly 0. -/
def itemZeroRate : UpdItemReq :=
  { description := "zero-rated", quantity := 1, price := 100, tax_rate := some 0 }

/-- An invoice with no items and zero totals, used as a concrete store
state. -/
def invEmpty : Invoice :=
  { invoiceNumber := "INV-1", customerName := "Ada", customerEmail := "ada@example.com",
    items := [], subTotal := 0, taxTotal := 0, grandTotal := 0, status := "Pending",
    paymentMethod := "Cash" }

/-- An update-invoice request carrying only the zero-rated item. -/
def reqZeroRateItems : UpdInvoiceReq :=
  { customerName := none, customerEmail := none, items := some [itemZeroRate],
    paymentMethod := none, status := none }

/-! Helper lemmas. -/

theorem jsOr_zero (x : Rat) : jsOr x 0 = x := by
  unfold jsOr
  split <;> simp_all

theorem jsOr_of_zero (d : Rat) : jsOr 0 d = d := by
  simp [jsOr]

theorem find?_map_setAmount (l : List Account) (i : Nat) (v : Rat) :
    (l.map (fun a => if a.id == i then { a with amount := v } else a)).find?
        (fun a => a.id == i) =
      (l.find? (fun a => a.id == i)).map (fun a => { a with amount := v }) := by
  induction l with
  | nil => rfl
  | cons a t ih =>
    simp only [List.map_cons]
    by_cases h : a.id = i
    · rw [if_pos (by simp [h])]
      rw [List.find?_cons_of_pos _ (by simp [h]), List.find?_cons_of_pos _ (by simp [h])]
      rfl
    · rw [if_neg (by simp [h])]
      rw [List.find?_cons_of_neg _ (by simp [h]), List.find?_cons_of_neg _ (by simp [h])]
      exact ih

theorem findAccount_setAccountAmount (st : St) (i : Nat) (v : Rat) :
    findAccount (setAccountAmount st i v) i =
      (findAccount st i).map (fun a => { a with amount := v }) := by
  unfold findAccount setAccountAmount
  exact find?_map_setAmount st.accounts i v

/-- The pre-save hook establishes the invoice totals invariant. -/
theorem invoicePreSave_invariant (inv : Invoice) :
    invoiceInvariant (invoicePreSave inv) := by
  unfold invoicePreSave invoiceInvariant
  simp [jsOr_zero]

/-- Evaluation of Scenario 1: the create stores exactly `txn1` and yields
`st1`. -/
theorem eval_scenario1 :
    createtransaction st0 reqCreate 0 true true = (st1, Except.ok txn1) := by
  norm_num [st0, st1, acct0, reqCreate, txn1, createtransaction, findAccount,
    createTaxAmount, jsOrO, jsOrInt, isCredit, setAccountAmount, List.find?]
  rfl

/-- Evaluation: the transaction stored by Scenario 1 is found again. -/
theorem eval_findTxn_st1 : findTxn st1 1 = some txn1 := by
  norm_num [st0, st1, acct0, reqCreate, txn1, createtransaction, findTxn, findAccount,
    createTaxAmount, jsOrO, jsOrInt, isCredit, setAccountAmount, List.find?]

/-! Claim theorems. -/

/-- C1: Scenario 1 (create Income 1000 at 10% against the balance-0 account)
does leave the balance at 1100, but Scenario 2 (edit the amount to 2000 at
the same 10% rate) leaves the balance at 2300, not the 2200 the claim
requires: the handler reverts the old effect by the stored base amount
(1000) instead of the old total (1100). -/
theorem C1_edit_scenario_balance :
    accountAmount st1 1 = some 1100 ∧ accountAmount st2 1 = some 2300 := by
  norm_num [st1, st2, st0, acct0, reqCreate, reqEdit, createtransaction, updatetransaction,
    findAccount, findTxn, accountAmount, setAccountAmount, setTxn, createTaxAmount,
    jsOrO, jsOrInt, jsOrStr, isCredit, List.find?]

/-- C2: after Scenario 2's edit, the stored transaction has amount 2200
(the handler stored the tax-inclusive total in `amount`), tax_amount 200,
and a stale total of 1100, so total = amount + amount × tax_rate / 100
fails. -/
theorem C2_edit_breaks_invariant :
    (findTxn st2 1).map Transaction.amount = some 2200 ∧
    (findTxn st2 1).map Transaction.tax_amount = some 200 ∧
    (findTxn st2 1).map Transaction.tax_rate = some 10 ∧
    (findTxn st2 1).map Transaction.total = some 1100 ∧
    (1100 : Rat) ≠ 2200 + 2200 * 10 / 100 := by
  norm_num [st1, st2, st0, acct0, reqCreate, reqEdit, createtransaction, updatetransaction,
    findAccount, findTxn, accountAmount, setAccountAmount, setTxn, createTaxAmount,
    jsOrO, jsOrInt, jsOrStr, isCredit, List.find?]

/-- C7: in a store whose only transaction is soft-deleted (an Income
transaction with tax_amount 100 and amount 1000), the tax report still
counts its tax_amount and the profit-and-loss report still counts its
amount — neither report filters out deleted transactions. -/
theorem C7_reports_include_deleted :
    (tax_report stDel { startDate := none, endDate := none, paymentMethod := none }).gstOnSales
        = 100 ∧
    (profit_loss stDel 0 10).totalIncome = 1000 := by
  norm_num [stDel, tax_report, profit_loss, matchesTaxFilter, List.filter]

/-- C4 counterexample: for base 100 and rate −10 the handler computes a tax
amount of 0, not the 100 × (−10) / 100 = −10 the claim requires — the
`tax_rate > 0` test is a domain check on negative rates. -/
theorem C4_counterexample :
    createTaxAmount 100 (some (-10)) = 0 ∧
    createTaxAmount 100 (some (-10)) ≠ 100 * (-10) / 100 := by
  norm_num [createTaxAmount]

/-- C8 counterexample: in a store where the only transaction referencing
account 1 is soft-deleted, the delete handler still refuses with the
cannot-delete-linked error and the store is unchanged, though the claim
says such an account may be deleted. -/
theorem C8_counterexample :
    stDel.txns.filter (fun t => !t.deleted && t.account == 1) = [] ∧
    (deleteAccount stDel 1).2 = Except.error Err.cannotDeleteLinked ∧
    (deleteAccount stDel 1).1 = stDel := by
  norm_num [stDel, deleteAccount, findAccount, List.find?, List.filter, acct0]

/-- C10 counterexample: the update-route pricing does not treat an explicit
tax_rate of 0 as absent — for a quantity-1, price-100 item with tax_rate 0
it computes tax_amount 0, not the 18 that the default 18% rate would
give. -/
theorem C10_counterexample :
    (updateRouteItem itemZeroRate).tax_rate = 0 ∧
    (updateRouteItem itemZeroRate).tax_amount = 0 ∧
    (updateRouteItem itemZeroRate).tax_amount ≠
      18 * (itemZeroRate.quantity * itemZeroRate.price) / 100 := by
  norm_num [updateRouteItem, itemZeroRate, jsOr]

/-- C3: whenever a transaction create succeeds, the owning account's balance
moves from its prior value by exactly +total for the Income, Loan and
Investment kinds and by −total for the Expense kind, where total is the
stored tax-inclusive total of the new transaction. -/
theorem C3_create_balance_change (st : St) (req : CreateTxnReq) (now : Int)
    (ok1 ok2 : Bool) (stB : St) (txn : Transaction) (acc : Account)
    (h : createtransaction st req now ok1 ok2 = (stB, Except.ok txn))
    (hacc : findAccount st req.account = some acc) :
    accountAmount stB req.account =
      some (if isCredit req.type then acc.amount + txn.total else acc.amount - txn.total) := by
  by_cases hguard : req.amount = 0 ∨ req.category = "" ∨ req.payment_mode = ""
  · simp [createtransaction, hguard] at h
  · cases ok1 with
    | false => simp [createtransaction, hguard, hacc] at h
    | true =>
      cases ok2 with
      | false => simp [createtransaction, hguard, hacc] at h
      | true =>
        simp only [createtransaction, hguard, hacc, if_false, Bool.not_true,
          Bool.false_eq_true, if_neg, Prod.mk.injEq, Except.ok.injEq] at h
        obtain ⟨h1, h2⟩ := h
        subst h1
        subst h2
        unfold accountAmount
        rw [findAccount_setAccountAmount]
        have haccs :
            (findAccount
              { st with
                txns := st.txns ++
                  [{ id := st.nextId, type := req.type, category := req.category,
                     amount := req.amount, tax_rate := jsOrO req.tax_rate 0,
                     tax_amount := createTaxAmount req.amount req.tax_rate,
                     total := req.amount + createTaxAmount req.amount req.tax_rate,
                     payment_mode := req.payment_mode, account := req.account,
                     date := jsOrInt req.date now, description := req.description,
                     createdAt := now, deleted := false }]
                nextId := st.nextId + 1 }
              req.account) = findAccount st req.account := rfl
        rw [haccs, hacc]
        simp only [Option.map_some]
        split <;> simp_all

/-- C6: both session-guarded units (transaction create and transaction
edit) leave the store untouched whenever they surface an error, whichever
step failed — the missing-fields guard, the lookup failures, or either of
the two persistence steps. -/
theorem C6_error_paths_leave_store_unchanged :
    (∀ (st : St) (req : CreateTxnReq) (now : Int) (ok1 ok2 : Bool) (e : Err),
      (createtransaction st req now ok1 ok2).2 = Except.error e →
      (createtransaction st req now ok1 ok2).1 = st) ∧
    (∀ (st : St) (id : Nat) (req : UpdateTxnReq) (ok1 ok2 : Bool) (e : Err),
      (updatetransaction st id req ok1 ok2).2 = Except.error e →
      (updatetransaction st id req ok1 ok2).1 = st) := by
  constructor
  · intro st req now ok1 ok2 e h
    by_cases hguard : req.amount = 0 ∨ req.category = "" ∨ req.payment_mode = ""
    · simp [createtransaction, hguard]
    · rcases hacc : findAccount st req.account with _ | acc
      · simp [createtransaction, hguard, hacc]
      · cases ok1 with
        | false => simp [createtransaction, hguard, hacc]
        | true =>
          cases ok2 with
          | false => simp [createtransaction, hguard, hacc]
          | true =>
            exfalso
            simp [createtransaction, hguard, hacc] at h
  · intro st id req ok1 ok2 e h
    rcases ht : findTxn st id with _ | txn
    · simp [updatetransaction, ht]
    · cases hd : txn.deleted with
      | true => simp [updatetransaction, ht, hd]
      | false =>
        rcases hacc : findAccount st txn.account with _ | acc
        · simp [updatetransaction, ht, hd, hacc]
        · cases ok1 with
          | false => simp [updatetransaction, ht, hd, hacc]
          | true =>
            cases ok2 with
            | false => simp [updatetransaction, ht, hd, hacc]
            | true =>
              exfalso
              simp [updatetransaction, ht, hd, hacc] at h

/-- C4 (amended): the create handler's tax computation yields
base × rate / 100 only for strictly positive rates; zero, negative and
absent rates all yield 0 (an absent rate is also stored as 0).  Stored
fields of a successful create satisfy total = amount + tax_amount with
amount the caller's pre-tax base, and a negative rate is accepted — the
create still succeeds. -/
theorem C4_tax_computation_amended :
    (∀ a r : Rat, createTaxAmount a (some r) = if 0 < r then a * r / 100 else 0) ∧
    (∀ a : Rat, createTaxAmount a none = 0) ∧
    (∀ (st : St) (req : CreateTxnReq) (now : Int) (ok1 ok2 : Bool) (stB : St)
        (txn : Transaction),
      createtransaction st req now ok1 ok2 = (stB, Except.ok txn) →
      txn.tax_amount = createTaxAmount req.amount req.tax_rate ∧
      txn.total = req.amount + txn.tax_amount ∧ txn.amount = req.amount) ∧
    (∀ (st : St) (req : CreateTxnReq) (now : Int),
      (∃ acc, findAccount st req.account = some acc) →
      ¬(req.amount = 0 ∨ req.category = "" ∨ req.payment_mode = "") →
      ∃ txn, (createtransaction st req now true true).2 = Except.ok txn) := by
  refine ⟨fun a r => rfl, fun a => rfl, ?_, ?_⟩
  · intro st req now ok1 ok2 stB txn h
    by_cases hguard : req.amount = 0 ∨ req.category = "" ∨ req.payment_mode = ""
    · simp [createtransaction, hguard] at h
    · rcases hacc : findAccount st req.account with _ | acc
      · simp [createtransaction, hguard, hacc] at h
      · cases ok1 with
        | false => simp [createtransaction, hguard, hacc] at h
        | true =>
          cases ok2 with
          | false => simp [createtransaction, hguard, hacc] at h
          | true =>
            simp only [createtransaction, hguard, hacc, if_false, Bool.not_true,
              Bool.false_eq_true, if_neg, Prod.mk.injEq, Except.ok.injEq] at h
            obtain ⟨h1, h2⟩ := h
            subst h2
            simp
  · intro st req now hex hguard
    obtain ⟨acc, hacc⟩ := hex
    simp [createtransaction, hguard, hacc]

/-- C5: the invoice totals invariant (subTotal is the sum of
quantity × price over the items, taxTotal the sum of the items' tax
amounts, grandTotal their sum) holds after every invoice create, and is
preserved by every invoice update: any update that saves re-runs the
pre-save hook, which recomputes all three totals from the current items,
and an update with no recognised field leaves the invoice untouched. -/
theorem C5_invoice_totals_invariant :
    (∀ req : CreateInvoiceReq, invoiceInvariant (createinvoice req)) ∧
    (∀ (inv : Invoice) (req : UpdInvoiceReq),
      invoiceInvariant inv → invoiceInvariant (update_invoice inv req)) := by
  constructor
  · intro req
    exact invoicePreSave_invariant _
  · intro inv req hinv
    unfold update_invoice
    by_cases h : req.hasUpdates = true
    · rw [if_pos h]
      exact invoicePreSave_invariant _
    · rw [if_neg h]
      exact hinv

/-- C5 witness: the invariant holds for the empty invoice and is carried
through a concrete update that replaces the items. -/
theorem C5_invoice_witness :
    invoiceInvariant (update_invoice invEmpty reqZeroRateItems) :=
  C5_invoice_totals_invariant.2 invEmpty reqZeroRateItems
    (by simp [invoiceInvariant, invEmpty])

/-- C8 (amended): given the account exists, deletion succeeds exactly when
no transaction at all — soft-deleted or not — references it; a blocked
delete changes nothing, and a successful delete removes the account and
touches no transaction. -/
theorem C8_delete_blocked_on_any_ref (st : St) (id : Nat) (acc : Account)
    (hacc : findAccount st id = some acc) :
    ((deleteAccount st id).2 = Except.ok () ↔
      st.txns.filter (fun t => t.account == acc.id) = []) ∧
    ((deleteAccount st id).2 = Except.ok () →
      (deleteAccount st id).1 =
        { st with accounts := st.accounts.filter (fun a => a.id != id) }) ∧
    (∀ e, (deleteAccount st id).2 = Except.error e → (deleteAccount st id).1 = st) := by
  by_cases hlen : (st.txns.filter (fun t => t.account == acc.id)).length > 0
  · refine ⟨iff_of_false ?_ (List.length_pos.mp hlen), ?_, ?_⟩
    · simp [deleteAccount, hacc, if_pos hlen]
    · intro hok
      exact absurd hok (by simp [deleteAccount, hacc, if_pos hlen])
    · intro e he
      simp [deleteAccount, hacc, if_pos hlen]
  · have hfil : st.txns.filter (fun t => t.account == acc.id) = [] := by
      rcases hn : st.txns.filter (fun t => t.account == acc.id) with _ | ⟨a, l⟩
      · exact hn
      · exact absurd (by rw [hn]; simp) hlen
    refine ⟨iff_of_true ?_ hfil, ?_, ?_⟩
    · simp [deleteAccount, hacc, if_neg hlen]
    · intro hok
      simp [deleteAccount, hacc, if_neg hlen]
    · intro e he
      exact absurd he (by simp [deleteAccount, hacc, if_neg hlen])

/-- C8 witness: for a store with an account and no transactions at all, the
amended equivalence evaluates: the delete succeeds because the reference
filter is empty. -/
theorem C8_delete_witness :
    (deleteAccount st0 1).2 = Except.ok () ↔
      st0.txns.filter (fun t => t.account == acct0.id) = [] :=
  (C8_delete_blocked_on_any_ref st0 1 acct0 rfl).1

/-- C9: the soft delete succeeds exactly when the transaction exists and is
not already deleted (otherwise it reports not-found), and on success it
only flips that record's deleted flag: the account collection, the id
counter, every other transaction, and every other field of the record are
unchanged, and no balance is reversed. -/
theorem C9_soft_delete_frame (st : St) (id : Nat) :
    ((deletetransaction st id).2 = Except.ok () ↔
      ∃ t, findTxn st id = some t ∧ t.deleted = false) ∧
    (∀ t, findTxn st id = some t → t.deleted = false →
      ((deletetransaction st id).1.accounts = st.accounts ∧
       (deletetransaction st id).1.nextId = st.nextId ∧
       (deletetransaction st id).1.txns =
         st.txns.map (fun x => if x.id == t.id then { t with deleted := true } else x))) := by
  rcases ht : findTxn st id with _ | t
  · constructor
    · simp [deletetransaction, ht]
    · intro t2 hft hdel
      exact absurd hft (by simp)
  · cases hd : t.deleted with
    | true =>
      constructor
      · simp [deletetransaction, ht, hd]
      · intro t2 hft hdel
        cases hft
        simp [hd] at hdel
    | false =>
      constructor
      · exact iff_of_true (by simp [deletetransaction, ht, hd]) ⟨t, rfl, hd⟩
      · intro t2 hft hdel
        cases hft
        simp [deletetransaction, ht, hd, setTxn]

/-- C9 witness: soft-deleting the transaction stored by Scenario 1 leaves
the accounts, the id counter, and everything but its deleted flag
unchanged. -/
theorem C9_soft_delete_witness :
    (deletetransaction st1 1).1.accounts = st1.accounts ∧
    (deletetransaction st1 1).1.nextId = st1.nextId ∧
    (deletetransaction st1 1).1.txns =
      st1.txns.map (fun x => if x.id == txn1.id then { txn1 with deleted := true } else x) :=
  (C9_soft_delete_frame st1 1).2 txn1 eval_findTxn_st1 rfl

/-- C10 (amended): the update route prices an explicit tax_rate of 0 at 0
tax, but every update that replaces items ends in a save whose pre-save
hook re-prices each item treating a 0 rate as absent, as does every
create; so a zero-rated line item always ends up stored with tax_rate 18
and tax_amount = 18% of quantity × price. -/
theorem C10_zero_rate_defaults_amended :
    (∀ it : InvItem, it.tax_rate = 0 →
      (preSaveItem it).tax_rate = 18 ∧
      (preSaveItem it).tax_amount = it.quantity * it.price * 18 / 100) ∧
    (∀ (inv : Invoice) (req : UpdInvoiceReq) (its : List UpdItemReq),
      req.items = some its → its.length > 0 →
      (update_invoice inv req).items = its.map (fun r => preSaveItem (updateRouteItem r))) ∧
    (∀ r : UpdItemReq, r.tax_rate = some 0 →
      (preSaveItem (updateRouteItem r)).tax_rate = 18 ∧
      (preSaveItem (updateRouteItem r)).tax_amount = r.quantity * r.price * 18 / 100) ∧
    (∀ req : CreateInvoiceReq,
      (createinvoice req).items = req.items.map (fun r => preSaveItem (createRouteItem r))) ∧
    (∀ r : NewItemReq, r.tax_rate = some 0 →
      (preSaveItem (createRouteItem r)).tax_rate = 18 ∧
      (preSaveItem (createRouteItem r)).tax_amount = r.quantity * r.price * 18 / 100) := by
  refine ⟨?_, ?_, ?_, ?_, ?_⟩
  · intro it h0
    simp [preSaveItem, jsOr_zero, jsOr_of_zero, h0]
  · intro inv req its hits hlen
    unfold update_invoice
    have hup : req.hasUpdates = true := by
      simp [UpdInvoiceReq.hasUpdates, hits]
    rw [if_pos hup, hits]
    simp only [if_pos hlen]
    simp [invoicePreSave, List.map_map, Function.comp]
  · intro r hr0
    simp [preSaveItem, updateRouteItem, jsOr_zero, jsOr_of_zero, hr0]
  · intro req
    simp [createinvoice, invoicePreSave, List.map_map, Function.comp]
  · intro r hr0
    simp [preSaveItem, createRouteItem, jsOr_zero, jsOr_of_zero, hr0]

/-- C10 witness: the zero-rated quantity-1, price-100 item ends up stored
with tax_rate 18 and tax_amount 18 once the pre-save hook has run. -/
theorem C10_zero_rate_witness :
    (preSaveItem (updateRouteItem itemZeroRate)).tax_rate = 18 ∧
    (preSaveItem (updateRouteItem itemZeroRate)).tax_amount =
      itemZeroRate.quantity * itemZeroRate.price * 18 / 100 :=
  C10_zero_rate_defaults_amended.2.2.1 itemZeroRate rfl

/-- C3 witness: instantiated at Scenario 1 — Income 1000 at 10% against the
balance-0 account gives balance 0 + 1100. -/
theorem C3_create_witness :
    accountAmount st1 reqCreate.account =
      some (if isCredit reqCreate.type then acct0.amount + txn1.total
            else acct0.amount - txn1.total) :=
  C3_create_balance_change st0 reqCreate 0 true true st1 txn1 acct0 eval_scenario1 rfl

/-- Evaluation: the negative-rate request has all required fields. -/
theorem reqNegRate_fields_present :
    ¬(reqNegRate.amount = 0 ∨ reqNegRate.category = "" ∨ reqNegRate.payment_mode = "") := by
  norm_num [reqNegRate]
  decide

/-- C4 witness: the create with tax_rate −10 succeeds against the concrete
store. -/
theorem C4_tax_witness :
    ∃ txn, (createtransaction st0 reqNegRate 0 true true).2 = Except.ok txn :=
  C4_tax_computation_amended.2.2.2 st0 reqNegRate 0 ⟨acct0, rfl⟩ reqNegRate_fields_present

/-- Evaluation: with the first persistence step failing, the create surfaces
a server error. -/
theorem eval_create_savefail :
    (createtransaction st0 reqCreate 0 false true).2 = Except.error Err.serverError := by
  norm_num [createtransaction, st0, acct0, reqCreate, findAccount, List.find?]
  rfl

/-- C6 witness: a create whose transaction-save step fails leaves the
concrete store unchanged. -/
theorem C6_atomic_witness :
    (createtransaction st0 reqCreate 0 false true).1 = st0 :=
  C6_error_paths_leave_store_unchanged.1 st0 reqCreate 0 false true Err.serverError
    eval_create_savefail

end Accounting
